import Mathlib

/-!
Shallow embedding of the HouseHunter travel-time prediction engine
(`app/services/here_api_service.py` and `app/services/interest_points_service.py`).

Conventions of the embedding:
* A calendar date is a day count (`Nat`) from an epoch that falls on a Monday,
  so `weekday d = d % 7` matches Python's `date.weekday()` (Monday = 0, Friday = 4).
* JSON dictionaries from the routing provider become structures whose possibly
  missing keys are `Option` fields; `dict.get(k, default)` becomes `Option.getD`.
* Python floats produced by true division (`length / 1000`) are modelled as `ℚ`.
* The ambient clock (`date.today()`, `datetime.now()`) is passed explicitly as
  the `today` (day count) and `now` (timestamp) arguments.
* Network calls are abstracted as function parameters supplied by the caller:
  a provider response oracle for `calculate_prediction_time`, and an
  `Except`-valued per-pair oracle (error = the call raised) for the engine loops,
  which catch and skip per-point failures.
-/

namespace HouseHunter

/-- Transportation modes supported by HERE API (`app/models/interest_points.py`). -/
inductive TransportationMode where
  | DRIVING
  | WALKING
  | PUBLIC_TRANSPORT
  | BICYCLING
  | TRUCK
  | TAXI
  | BUS
  | TRAIN
  | SUBWAY
  | TRAM
  | FERRY
deriving DecidableEq, Repr

/-- The wire-format string of each mode (the `str`-enum's value). -/
def TransportationMode.value : TransportationMode → String
  | .DRIVING => "car"
  | .WALKING => "pedestrian"
  | .PUBLIC_TRANSPORT => "publicTransport"
  | .BICYCLING => "bicycle"
  | .TRUCK => "truck"
  | .TAXI => "taxi"
  | .BUS => "bus"
  | .TRAIN => "train"
  | .SUBWAY => "subway"
  | .TRAM => "tram"
  | .FERRY => "ferry"

/-- Interest point model (`app/models/interest_points.py`, class `InterestPoint`). -/
structure InterestPoint where
  id : String
  name : String
  category : String
  latitude : ℚ
  longitude : ℚ
  address : Option String := none
  description : Option String := none
  rating : Option ℚ := none
  opening_hours : Option String := none
  phone : Option String := none
  website : Option String := none
  price_level : Option String := none
  photos : Option (List String) := none
  tags : Option (List String) := none
  created_at : Option String := none
  updated_at : Option String := none
  is_active : Bool := true
  source : Option String := none
  external_id : Option String := none
  default_transportation_mode : TransportationMode := .DRIVING
deriving DecidableEq, Repr

/-- The `summary` block of a regular route; both keys may be missing. -/
structure Summary where
  duration : Option Nat := none
  length : Option Nat := none
deriving DecidableEq, Repr

/-- The `travelSummary` block of a transit section; both keys may be missing. -/
structure TravelSummary where
  duration : Option Nat := none
  length : Option Nat := none
deriving DecidableEq, Repr

/-- The `transport` block of a transit section. -/
structure Transport where
  mode : Option String := none
  name : Option String := none
  line : Option String := none
deriving DecidableEq, Repr

/-- One element of a transit route's `sections` array. -/
structure RouteSection where
  type : Option String := none
  travelSummary : Option TravelSummary := none
  transport : Option Transport := none
deriving DecidableEq, Repr

/-- One element of a provider response's `routes` array; either shape. -/
structure Route where
  summary : Option Summary := none
  sections : Option (List RouteSection) := none
deriving DecidableEq, Repr

/-- A raw provider response; the `routes` key may be missing. -/
structure RouteData where
  routes : Option (List Route) := none
deriving DecidableEq, Repr

/-- One entry of the `route_details` list built by the transit extractor
(the `section_info` dict of `_extract_public_transit_prediction`). -/
structure SectionInfo where
  type : String
  duration_minutes : Nat
  distance_m : Nat
  mode : Option String := none
  name : Option String := none
  line : Option String := none
deriving DecidableEq, Repr

/-- The prediction dict returned by `HereApiService.calculate_prediction_time`.
Keys absent on the regular-route path (`route_details`, walking totals) are
`Option` fields left `none` there. `calculated_at` holds the `now` timestamp. -/
structure Prediction where
  origin_lat : ℚ
  origin_lng : ℚ
  dest_lat : ℚ
  dest_lng : ℚ
  transport_mode : String
  distance_km : ℚ
  duration_minutes : Nat
  prediction_date : Nat
  departure_time : String
  arrival_time : String
  calculated_at : Nat
  route_details : Option (List SectionInfo) := none
  total_walking_minutes : Option Nat := none
  total_walking_distance_km : Option ℚ := none
deriving DecidableEq, Repr

/-- Python's `date.weekday()` under the day-count model (Monday epoch). -/
def weekday (d : Nat) : Nat := d % 7

/-- `days_ahead = 4 - today.weekday(); if days_ahead <= 0: days_ahead += 7`
(shared by `calculate_prediction_time` and `_get_next_friday_9am`). -/
def nextFridayDaysAhead (w : Nat) : Int :=
  if 4 - (w : Int) ≤ 0 then 4 - (w : Int) + 7 else 4 - (w : Int)

/-- `next_friday = today + timedelta(days=days_ahead)`. -/
def nextFriday (today : Nat) : Nat :=
  today + (nextFridayDaysAhead (weekday today)).toNat

/-- Two-digit zero padding used when rendering clock times. -/
def pad2 (n : Nat) : String :=
  if n < 10 then "0" ++ toString n else toString n

/-- `strftime("%H:%M")` of a timestamp given as seconds past midnight of the
departure date (wrapping past midnight, as the format drops the date). -/
def fmtHM (totalSeconds : Nat) : String :=
  pad2 ((totalSeconds / 3600) % 24) ++ ":" ++ pad2 ((totalSeconds % 3600) / 60)

/-- `section.get("travelSummary", {}).get("duration", 0)`. -/
def sectionDuration (s : RouteSection) : Nat :=
  ((s.travelSummary.getD {}).duration).getD 0

/-- `section.get("travelSummary", {}).get("length", 0)`. -/
def sectionLength (s : RouteSection) : Nat :=
  ((s.travelSummary.getD {}).length).getD 0

/-- `section.get("type", "unknown")`. -/
def sectionType (s : RouteSection) : String :=
  s.type.getD "unknown"

/-- Whether a section's type string is the pedestrian tag. -/
def isPedestrian (s : RouteSection) : Bool :=
  sectionType s == "pedestrian"

/-- The `section_info` dict built for each section inside
`_extract_public_transit_prediction` (lines 296-316). -/
def sectionInfoOf (s : RouteSection) : SectionInfo :=
  let t := sectionType s
  let base : SectionInfo :=
    { type := t, duration_minutes := sectionDuration s / 60, distance_m := sectionLength s }
  if t = "transit" then
    let tr := s.transport.getD {}
    { base with
        mode := some (tr.mode.getD "unknown")
        name := some (tr.name.getD "Unknown")
        line := some (tr.line.getD "Unknown") }
  else if t = "pedestrian" then
    { base with mode := some "walking", name := some "Walking" }
  else
    base

/-- Accumulator of the section loop of `_extract_public_transit_prediction`. -/
structure TransitAcc where
  total_duration : Nat := 0
  total_distance : Nat := 0
  total_walking_duration : Nat := 0
  total_walking_distance : Nat := 0
  route_details : List SectionInfo := []
deriving DecidableEq, Repr

/-- One iteration of the section loop (lines 282-316). -/
def transitStep (acc : TransitAcc) (s : RouteSection) : TransitAcc :=
  { total_duration := acc.total_duration + sectionDuration s
    total_distance := acc.total_distance + sectionLength s
    total_walking_duration :=
      acc.total_walking_duration + (if isPedestrian s then sectionDuration s else 0)
    total_walking_distance :=
      acc.total_walking_distance + (if isPedestrian s then sectionLength s else 0)
    route_details := acc.route_details ++ [sectionInfoOf s] }

/-- `HereApiService._extract_public_transit_prediction` (lines 261-337).
A missing `sections` key leaves every accumulator at its zero initial value. -/
def extract_public_transit_prediction (route : Route)
    (origin_lat origin_lng dest_lat dest_lng : ℚ)
    (transport_mode : TransportationMode) (next_friday : Nat) (now : Nat) : Prediction :=
  let acc := (route.sections.getD []).foldl transitStep {}
  { origin_lat := origin_lat
    origin_lng := origin_lng
    dest_lat := dest_lat
    dest_lng := dest_lng
    transport_mode := transport_mode.value
    distance_km := (acc.total_distance : ℚ) / 1000
    duration_minutes := acc.total_duration / 60
    prediction_date := next_friday
    departure_time := "09:00"
    arrival_time := fmtHM (9 * 3600 + acc.total_duration)
    calculated_at := now
    route_details := some acc.route_details
    total_walking_minutes := some (acc.total_walking_duration / 60)
    total_walking_distance_km := some ((acc.total_walking_distance : ℚ) / 1000) }

/-- `HereApiService._extract_regular_route_prediction` (lines 343-379).
`route.get("summary", {})` with `.get(..., 0)` defaults: a missing summary or
missing keys fall back to 0; no route details or walking totals are emitted. -/
def extract_regular_route_prediction (route : Route)
    (origin_lat origin_lng dest_lat dest_lng : ℚ)
    (transport_mode : TransportationMode) (next_friday : Nat) (now : Nat) : Prediction :=
  let summary := route.summary.getD {}
  let duration_seconds := summary.duration.getD 0
  { origin_lat := origin_lat
    origin_lng := origin_lng
    dest_lat := dest_lat
    dest_lng := dest_lng
    transport_mode := transport_mode.value
    distance_km := (summary.length.getD 0 : ℚ) / 1000
    duration_minutes := duration_seconds / 60
    prediction_date := next_friday
    departure_time := "09:00"
    arrival_time := fmtHM (9 * 3600 + duration_seconds)
    calculated_at := now }

/-- `HereApiService.calculate_prediction_time` (lines 201-259). The provider
oracle stands for the two HTTP endpoints: it maps the chosen mode to the raw
response (`none` = HTTP error / timeout / exception, all caught and logged).
A prediction is produced only when the response has a non-empty `routes` list;
the extractor is chosen by mode, never by inspecting the response. -/
def calculate_prediction_time
    (provider : TransportationMode → Option RouteData)
    (today now : Nat)
    (origin_lat origin_lng dest_lat dest_lng : ℚ)
    (transport_mode : Option TransportationMode) : Option Prediction :=
  let mode := transport_mode.getD .DRIVING
  let next_friday := nextFriday today
  match provider mode with
  | some rd =>
    match rd.routes with
    | some (route :: _) =>
      if mode = .PUBLIC_TRANSPORT then
        some (extract_public_transit_prediction route
          origin_lat origin_lng dest_lat dest_lng mode next_friday now)
      else
        some (extract_regular_route_prediction route
          origin_lat origin_lng dest_lat dest_lng mode next_friday now)
    | some [] => none
    | none => none
  | none => none

/-- A concrete 30-second, 10-meter pedestrian section used as test data. -/
def walkSec30 : RouteSection :=
  { type := some "pedestrian"
    travelSummary := some { duration := some 30, length := some 10 } }

/-- A prediction with its `calculated_at` timestamp normalized away, to state
which fields are independent of the wall clock at extraction time. -/
def erase_calculated_at (p : Prediction) : Prediction :=
  { p with calculated_at := 0 }

/-- `PredictionTimeResult` (`app/models/interest_points.py`). -/
structure PredictionTimeResult where
  origin_point_id : String
  destination_point_id : String
  transportation_mode : TransportationMode
  distance_km : ℚ
  duration_minutes : Nat
  prediction_date : Nat
  departure_time : Option String := none
  arrival_time : Option String := none
  route_summary : Option String := none
  route_details : Option (List SectionInfo) := none
  total_walking_minutes : Option Nat := none
  total_walking_distance_km : Option ℚ := none
  calculated_at : Nat
deriving DecidableEq, Repr

/-- `PropertyPredictionInfo` (`app/models/interest_points.py`). -/
structure PropertyPredictionInfo where
  property_id : String
  property_address : String
  property_latitude : ℚ
  property_longitude : ℚ
  prediction_date : Nat
  predictions : List PredictionTimeResult
  calculated_at : Nat
deriving DecidableEq, Repr

/-- `InterestPointsService.get_active_interest_points` (lines 78-80). -/
def get_active_interest_points (pts : List InterestPoint) : List InterestPoint :=
  pts.filter (fun p => p.is_active)

/-- `InterestPointsService.get_interest_point_by_id` (lines 82-87): first
stored point with the given id, else `none`. -/
def get_interest_point_by_id (pts : List InterestPoint) (point_id : String) :
    Option InterestPoint :=
  pts.find? (fun p => p.id == point_id)

/-- `InterestPointsService.add_interest_point` (lines 93-107): refuse when the
id already exists, otherwise append; returns the new stored list and the
reported Bool. -/
def add_interest_point (pts : List InterestPoint) (p : InterestPoint) :
    List InterestPoint × Bool :=
  match get_interest_point_by_id pts p.id with
  | some _ => (pts, false)
  | none => (pts ++ [p], true)

/-- The `PredictionTimeResult(...)` built per successful point inside
`calculate_predictions_for_property` (lines 244-258). -/
def mk_prediction_result (point : InterestPoint) (data : Prediction)
    (next_friday now : Nat) : PredictionTimeResult :=
  { origin_point_id := "property"
    destination_point_id := point.id
    transportation_mode := point.default_transportation_mode
    distance_km := data.distance_km
    duration_minutes := data.duration_minutes
    prediction_date := next_friday
    departure_time := some data.departure_time
    arrival_time := some data.arrival_time
    route_summary := some ("Route to " ++ point.name)
    route_details := data.route_details
    total_walking_minutes := data.total_walking_minutes
    total_walking_distance_km := data.total_walking_distance_km
    calculated_at := now }

/-- The per-point loop of `calculate_predictions_for_property` (lines 229-263).
The oracle stands for `here_service.calculate_prediction_time`; an
`Except.error` models the call raising, which the loop catches and skips, and
`.ok none` models "no prediction produced", which appends nothing. -/
def predictionLoop
    (predict : ℚ → ℚ → ℚ → ℚ → Option TransportationMode → Except String (Option Prediction))
    (latitude longitude : ℚ) (next_friday now : Nat) :
    List InterestPoint → List PredictionTimeResult
  | [] => []
  | point :: rest =>
    match predict latitude longitude point.latitude point.longitude
        (some point.default_transportation_mode) with
    | .ok (some data) =>
      mk_prediction_result point data next_friday now ::
        predictionLoop predict latitude longitude next_friday now rest
    | _ => predictionLoop predict latitude longitude next_friday now rest

/-- `InterestPointsService.calculate_predictions_for_property` (lines 201-289):
resolve the Friday target, read the active points, return an empty set when
there are none, otherwise run the per-point loop with per-point isolation. -/
def calculate_predictions_for_property (pts : List InterestPoint)
    (predict : ℚ → ℚ → ℚ → ℚ → Option TransportationMode → Except String (Option Prediction))
    (today now : Nat) (latitude longitude : ℚ) (property_address : String) :
    PropertyPredictionInfo :=
  let next_friday := nextFriday today
  let active_points := get_active_interest_points pts
  if active_points.isEmpty then
    { property_id := "property"
      property_address := property_address
      property_latitude := latitude
      property_longitude := longitude
      prediction_date := next_friday
      predictions := []
      calculated_at := now }
  else
    { property_id := "property"
      property_address := property_address
      property_latitude := latitude
      property_longitude := longitude
      prediction_date := next_friday
      predictions := predictionLoop predict latitude longitude next_friday now active_points
      calculated_at := now }

/-- One enriched prediction of `batch_calculate_predictions`: the prediction
dict with the `property_id` / `interest_point_id` / `interest_point_name`
keys added (lines 402-406). -/
structure BatchPrediction where
  property_id : String
  interest_point_id : String
  interest_point_name : String
  data : Prediction
deriving DecidableEq, Repr

/-- One per-property entry of the batch result (lines 412-416). -/
structure BatchResult where
  property_id : String
  predictions : List BatchPrediction
  total_predictions : Nat
deriving DecidableEq, Repr

/-- The inner loop of `batch_calculate_predictions` over interest points
(lines 393-410), with the same per-pair exception isolation as the engine. -/
def batchPointLoop
    (predict : ℚ → ℚ → ℚ → ℚ → Option TransportationMode → Except String (Option Prediction))
    (prop_id : String) (prop_lat prop_lng : ℚ) :
    List InterestPoint → List BatchPrediction
  | [] => []
  | point :: rest =>
    match predict prop_lat prop_lng point.latitude point.longitude
        (some point.default_transportation_mode) with
    | .ok (some pred) =>
      { property_id := prop_id
        interest_point_id := point.id
        interest_point_name := point.name
        data := pred } :: batchPointLoop predict prop_id prop_lat prop_lng rest
    | _ => batchPointLoop predict prop_id prop_lat prop_lng rest

/-- `HereApiService.batch_calculate_predictions` (lines 381-422): one result
per input property, in input order, counting its own predictions. -/
def batch_calculate_predictions
    (predict : ℚ → ℚ → ℚ → ℚ → Option TransportationMode → Except String (Option Prediction))
    (properties : List (String × ℚ × ℚ)) (interest_points : List InterestPoint) :
    List BatchResult :=
  properties.map (fun prop =>
    let prop_predictions := batchPointLoop predict prop.1 prop.2.1 prop.2.2 interest_points
    { property_id := prop.1
      predictions := prop_predictions
      total_predictions := prop_predictions.length })

/-- A concrete inactive interest point used as test data. -/
def inactivePoint : InterestPoint :=
  { id := "a", name := "A", category := "general", latitude := 0, longitude := 0,
    is_active := false }

/-- A concrete interest point with id "a" used as test data. -/
def pointA : InterestPoint :=
  { id := "a", name := "A", category := "general", latitude := 0, longitude := 0 }

/-- A concrete interest point with id "b" used as test data. -/
def pointB : InterestPoint :=
  { id := "b", name := "B", category := "general", latitude := 1, longitude := 1 }

end HouseHunter

namespace HouseHunter

/-- The section loop computes the four running totals as sums over the section
list (walking totals over the pedestrian sections only) and appends one
`section_info` entry per section in input order. -/
theorem foldl_transitStep_spec (ss : List RouteSection) (acc : TransitAcc) :
    ss.foldl transitStep acc =
      { total_duration := acc.total_duration + (ss.map sectionDuration).sum
        total_distance := acc.total_distance + (ss.map sectionLength).sum
        total_walking_duration :=
          acc.total_walking_duration + ((ss.filter isPedestrian).map sectionDuration).sum
        total_walking_distance :=
          acc.total_walking_distance + ((ss.filter isPedestrian).map sectionLength).sum
        route_details := acc.route_details ++ ss.map sectionInfoOf } := by
  induction ss generalizing acc with
  | nil => simp
  | cons s tl ih =>
    rw [List.foldl_cons, ih]
    cases h : isPedestrian s <;>
      simp [transitStep, h, List.filter_cons, Nat.add_assoc]

/-- The `section_info` entry keeps the section's (defaulted) type string. -/
theorem sectionInfoOf_type (s : RouteSection) :
    (sectionInfoOf s).type = sectionType s := by
  simp only [sectionInfoOf]
  split
  · rfl
  · split <;> rfl

/-- The `section_info` entry floors the section's seconds to minutes. -/
theorem sectionInfoOf_duration (s : RouteSection) :
    (sectionInfoOf s).duration_minutes = sectionDuration s / 60 := by
  simp only [sectionInfoOf]
  split
  · rfl
  · split <;> rfl

/-- A list's sum is bounded by sixty times the per-element floored quotients
plus the discarded remainders (at most 59 each). -/
theorem sum_le_sixty_mul (ds : List Nat) :
    ds.sum ≤ 60 * (ds.map (fun d => d / 60)).sum + 59 * ds.length := by
  induction ds with
  | nil => simp
  | cons a tl ih =>
    simp only [List.sum_cons, List.map_cons, List.length_cons]
    omega

/-- Flooring each element before summing undershoots flooring the total by at
most (length - 1). -/
theorem sum_div_sixty_bounds (ds : List Nat) :
    (ds.map (fun d => d / 60)).sum ≤ ds.sum / 60 ∧
      ds.sum / 60 ≤ (ds.map (fun d => d / 60)).sum + (ds.length - 1) := by
  constructor
  · induction ds with
    | nil => simp
    | cons a tl ih =>
      simp only [List.map_cons, List.sum_cons]
      omega
  · cases ds with
    | nil => simp
    | cons a tl =>
      have h1 := sum_le_sixty_mul (a :: tl)
      simp only [List.sum_cons, List.map_cons, List.length_cons] at h1 ⊢
      omega

/-- C2: for every date `d`, the Friday resolution returns a Friday strictly
later than `d`; when `d` is itself a Friday the result is `d + 7`. -/
theorem nextFriday_is_future_friday (d : Nat) :
    weekday (nextFriday d) = 4 ∧ d < nextFriday d ∧
      (weekday d = 4 → nextFriday d = d + 7) := by
  unfold nextFriday nextFridayDaysAhead weekday
  split <;> omega

/-- Witness for C2 at `d = 4` (a Friday): the resolver rolls to `d + 7`. -/
theorem nextFriday_is_future_friday_witness :
    weekday (nextFriday 4) = 4 ∧ 4 < nextFriday 4 ∧ nextFriday 4 = 4 + 7 :=
  ⟨(nextFriday_is_future_friday 4).1, (nextFriday_is_future_friday 4).2.1,
    (nextFriday_is_future_friday 4).2.2 (by decide)⟩

/-- C3: regular-route extraction with `summary.duration = S` and
`summary.length = L` yields `duration_minutes = S / 60` (floor),
`distance_km = L / 1000`, and no route details or walking totals; in
particular `S = 125` gives 2 minutes, never 3. -/
theorem regular_extraction_fields (S L : Nat) (secs : Option (List RouteSection))
    (olat olng dlat dlng : ℚ) (m : TransportationMode) (nf now : Nat) :
    (extract_regular_route_prediction
        { summary := some { duration := some S, length := some L }, sections := secs }
        olat olng dlat dlng m nf now).duration_minutes = S / 60 ∧
    (extract_regular_route_prediction
        { summary := some { duration := some S, length := some L }, sections := secs }
        olat olng dlat dlng m nf now).distance_km = (L : ℚ) / 1000 ∧
    (extract_regular_route_prediction
        { summary := some { duration := some S, length := some L }, sections := secs }
        olat olng dlat dlng m nf now).route_details = none ∧
    (extract_regular_route_prediction
        { summary := some { duration := some S, length := some L }, sections := secs }
        olat olng dlat dlng m nf now).total_walking_minutes = none ∧
    (extract_regular_route_prediction
        { summary := some { duration := some S, length := some L }, sections := secs }
        olat olng dlat dlng m nf now).total_walking_distance_km = none ∧
    (extract_regular_route_prediction
        { summary := some { duration := some 125, length := some L } }
        olat olng dlat dlng m nf now).duration_minutes = 2 := by
  refine ⟨rfl, rfl, rfl, rfl, rfl, ?_⟩
  simp [extract_regular_route_prediction]

/-- C1 counterexample: a response whose single route has no summary block at
all still produces a prediction (`isSome`), with zero duration and zero
distance — not the failure signal the claim requires. -/
theorem missing_summary_not_failure_counterexample :
    (calculate_prediction_time
        (fun _ => some { routes := some [{ summary := none }] })
        0 0 0 0 0 0 (some .DRIVING)).isSome = true ∧
    (calculate_prediction_time
        (fun _ => some { routes := some [{ summary := none }] })
        0 0 0 0 0 0 (some .DRIVING)).map Prediction.duration_minutes = some 0 ∧
    (calculate_prediction_time
        (fun _ => some { routes := some [{ summary := none }] })
        0 0 0 0 0 0 (some .DRIVING)).map Prediction.distance_km = some 0 := by
  refine ⟨rfl, rfl, ?_⟩
  simp [calculate_prediction_time, extract_regular_route_prediction]

/-- C1 amended: when the non-transit provider response has a non-empty route
list whose first route lacks a summary, the code returns a zero-filled
prediction (`some`, duration 0, distance 0, no legs), not a failure signal;
only a missing or empty route list (or provider failure) yields no prediction. -/
theorem missing_summary_zero_prediction
    (provider : TransportationMode → Option RouteData) (today now : Nat)
    (olat olng dlat dlng : ℚ) (m : TransportationMode)
    (secs : Option (List RouteSection)) (rest : List Route)
    (hmode : m ≠ .PUBLIC_TRANSPORT)
    (hresp : provider m = some { routes := some ({ summary := none, sections := secs } :: rest) }) :
    calculate_prediction_time provider today now olat olng dlat dlng (some m) =
      some (extract_regular_route_prediction { summary := none, sections := secs }
        olat olng dlat dlng m (nextFriday today) now) ∧
    (extract_regular_route_prediction { summary := none, sections := secs }
        olat olng dlat dlng m (nextFriday today) now).duration_minutes = 0 ∧
    (extract_regular_route_prediction { summary := none, sections := secs }
        olat olng dlat dlng m (nextFriday today) now).distance_km = 0 ∧
    (extract_regular_route_prediction { summary := none, sections := secs }
        olat olng dlat dlng m (nextFriday today) now).route_details = none := by
  refine ⟨?_, ?_, ?_, rfl⟩
  · simp [calculate_prediction_time, hresp, hmode]
  · simp [extract_regular_route_prediction]
  · simp [extract_regular_route_prediction]

/-- Witness for C1's amended theorem at a concrete driving response. -/
theorem missing_summary_zero_prediction_witness :
    calculate_prediction_time
        (fun _ => some { routes := some [{ summary := none }] })
        0 0 0 0 0 0 (some .DRIVING) =
      some (extract_regular_route_prediction { summary := none }
        0 0 0 0 .DRIVING (nextFriday 0) 0) ∧
    (extract_regular_route_prediction { summary := none }
        0 0 0 0 .DRIVING (nextFriday 0) 0).duration_minutes = 0 ∧
    (extract_regular_route_prediction { summary := none }
        0 0 0 0 .DRIVING (nextFriday 0) 0).distance_km = 0 ∧
    (extract_regular_route_prediction { summary := none }
        0 0 0 0 .DRIVING (nextFriday 0) 0).route_details = none :=
  missing_summary_zero_prediction
    (fun _ => some { routes := some [{ summary := none }] })
    0 0 0 0 0 0 .DRIVING none [] (by decide) rfl

/-- C4: transit extraction sums `travelSummary.duration` / `travelSummary.length`
over all sections (floor-dividing the total seconds by 60, dividing total
meters by 1000), sums the walking totals over exactly the pedestrian sections,
and emits one route-detail leg per section in input order; on the example
itinerary [pedestrian 300s/400m, transit 900s/5000m] this gives 20 minutes,
5 walking minutes, 0.4 walking km and two legs. -/
theorem transit_extraction_totals (ss : List RouteSection) (sm : Option Summary)
    (olat olng dlat dlng : ℚ) (m : TransportationMode) (nf now : Nat) :
    (extract_public_transit_prediction { summary := sm, sections := some ss }
        olat olng dlat dlng m nf now).duration_minutes =
      (ss.map sectionDuration).sum / 60 ∧
    (extract_public_transit_prediction { summary := sm, sections := some ss }
        olat olng dlat dlng m nf now).distance_km =
      ((ss.map sectionLength).sum : ℚ) / 1000 ∧
    (extract_public_transit_prediction { summary := sm, sections := some ss }
        olat olng dlat dlng m nf now).total_walking_minutes =
      some (((ss.filter isPedestrian).map sectionDuration).sum / 60) ∧
    (extract_public_transit_prediction { summary := sm, sections := some ss }
        olat olng dlat dlng m nf now).total_walking_distance_km =
      some ((((ss.filter isPedestrian).map sectionLength).sum : ℚ) / 1000) ∧
    (extract_public_transit_prediction { summary := sm, sections := some ss }
        olat olng dlat dlng m nf now).route_details =
      some (ss.map sectionInfoOf) ∧
    ((extract_public_transit_prediction
        { sections := some
            [{ type := some "pedestrian"
               travelSummary := some { duration := some 300, length := some 400 } },
             { type := some "transit"
               travelSummary := some { duration := some 900, length := some 5000 } }] }
        0 0 0 0 .PUBLIC_TRANSPORT 0 0).duration_minutes = 20 ∧
      (extract_public_transit_prediction
        { sections := some
            [{ type := some "pedestrian"
               travelSummary := some { duration := some 300, length := some 400 } },
             { type := some "transit"
               travelSummary := some { duration := some 900, length := some 5000 } }] }
        0 0 0 0 .PUBLIC_TRANSPORT 0 0).total_walking_minutes = some 5 ∧
      (extract_public_transit_prediction
        { sections := some
            [{ type := some "pedestrian"
               travelSummary := some { duration := some 300, length := some 400 } },
             { type := some "transit"
               travelSummary := some { duration := some 900, length := some 5000 } }] }
        0 0 0 0 .PUBLIC_TRANSPORT 0 0).total_walking_distance_km = some ((2 : ℚ) / 5) ∧
      ((extract_public_transit_prediction
        { sections := some
            [{ type := some "pedestrian"
               travelSummary := some { duration := some 300, length := some 400 } },
             { type := some "transit"
               travelSummary := some { duration := some 900, length := some 5000 } }] }
        0 0 0 0 .PUBLIC_TRANSPORT 0 0).route_details.getD []).length = 2) := by
  have h := foldl_transitStep_spec ss ({} : TransitAcc)
  have hc := foldl_transitStep_spec
      [{ type := some "pedestrian"
         travelSummary := some { duration := some 300, length := some 400 } },
       { type := some "transit"
         travelSummary := some { duration := some 900, length := some 5000 } }]
      ({} : TransitAcc)
  refine ⟨by simp [extract_public_transit_prediction, h],
    by simp [extract_public_transit_prediction, h],
    by simp [extract_public_transit_prediction, h],
    by simp [extract_public_transit_prediction, h],
    by simp [extract_public_transit_prediction, h],
    by decide, by decide, ?_, by decide⟩
  simp [extract_public_transit_prediction, hc, isPedestrian, sectionType, sectionLength]
  norm_num

/-- C5 counterexample: two 30-second pedestrian sections give a prediction with
`total_walking_minutes = some 1` (the 60 summed seconds floored once), while
the per-leg minutes of the pedestrian legs sum to 0 — the claimed equality
fails. -/
theorem transit_walking_sum_counterexample :
    ¬ ((extract_public_transit_prediction { sections := some [walkSec30, walkSec30] }
          0 0 0 0 .PUBLIC_TRANSPORT 0 0).total_walking_minutes =
        some (((((extract_public_transit_prediction
                { sections := some [walkSec30, walkSec30] }
                0 0 0 0 .PUBLIC_TRANSPORT 0 0).route_details.getD []).filter
              (fun leg => leg.type == "pedestrian")).map
            SectionInfo.duration_minutes).sum)) := by
  decide

/-- C5 amended: when the transit prediction carries legs, its total
`duration_minutes` lies between the sum of the per-leg minutes and that sum
plus (number of legs - 1), and `total_walking_minutes` lies between the sum of
the pedestrian legs' minutes and that sum plus (number of pedestrian legs - 1);
the totals floor the summed seconds once, so they can exceed the per-leg sums
by the floored remainders, and exact equality can fail. -/
theorem transit_leg_sum_bounds (ss : List RouteSection) (sm : Option Summary)
    (olat olng dlat dlng : ℚ) (m : TransportationMode) (nf now : Nat)
    (legs : List SectionInfo)
    (hlegs : (extract_public_transit_prediction { summary := sm, sections := some ss }
        olat olng dlat dlng m nf now).route_details = some legs) :
    ((legs.map SectionInfo.duration_minutes).sum ≤
        (extract_public_transit_prediction { summary := sm, sections := some ss }
          olat olng dlat dlng m nf now).duration_minutes ∧
      (extract_public_transit_prediction { summary := sm, sections := some ss }
          olat olng dlat dlng m nf now).duration_minutes ≤
        (legs.map SectionInfo.duration_minutes).sum + (legs.length - 1)) ∧
    (((legs.filter (fun leg => leg.type == "pedestrian")).map
          SectionInfo.duration_minutes).sum ≤
        (extract_public_transit_prediction { summary := sm, sections := some ss }
          olat olng dlat dlng m nf now).total_walking_minutes.getD 0 ∧
      (extract_public_transit_prediction { summary := sm, sections := some ss }
          olat olng dlat dlng m nf now).total_walking_minutes.getD 0 ≤
        ((legs.filter (fun leg => leg.type == "pedestrian")).map
            SectionInfo.duration_minutes).sum +
          ((legs.filter (fun leg => leg.type == "pedestrian")).length - 1)) := by
  have h := foldl_transitStep_spec ss ({} : TransitAcc)
  have hlegs' : legs = ss.map sectionInfoOf := by
    have h2 := hlegs
    simp [extract_public_transit_prediction, h] at h2
    exact h2.symm
  subst hlegs'
  have hdur : (extract_public_transit_prediction { summary := sm, sections := some ss }
      olat olng dlat dlng m nf now).duration_minutes = (ss.map sectionDuration).sum / 60 := by
    simp [extract_public_transit_prediction, h]
  have hwalk : (extract_public_transit_prediction { summary := sm, sections := some ss }
      olat olng dlat dlng m nf now).total_walking_minutes =
      some (((ss.filter isPedestrian).map sectionDuration).sum / 60) := by
    simp [extract_public_transit_prediction, h]
  have hmap : (ss.map sectionInfoOf).map SectionInfo.duration_minutes =
      (ss.map sectionDuration).map (fun d => d / 60) := by
    simp only [List.map_map]
    congr 1
    funext s
    simp [Function.comp, sectionInfoOf_duration]
  have hpred : ((fun leg : SectionInfo => leg.type == "pedestrian") ∘ sectionInfoOf) =
      isPedestrian := by
    funext s
    simp [Function.comp, sectionInfoOf_type, isPedestrian]
  have hfil : (ss.map sectionInfoOf).filter (fun leg => leg.type == "pedestrian") =
      (ss.filter isPedestrian).map sectionInfoOf := by
    rw [List.filter_map, hpred]
  have hmapf : ((ss.filter isPedestrian).map sectionInfoOf).map SectionInfo.duration_minutes =
      ((ss.filter isPedestrian).map sectionDuration).map (fun d => d / 60) := by
    simp only [List.map_map]
    congr 1
    funext s
    simp [Function.comp, sectionInfoOf_duration]
  have hb1 := sum_div_sixty_bounds (ss.map sectionDuration)
  have hb2 := sum_div_sixty_bounds ((ss.filter isPedestrian).map sectionDuration)
  refine ⟨⟨?_, ?_⟩, ?_, ?_⟩
  · rw [hdur, hmap]; exact hb1.1
  · rw [hdur, hmap]
    simpa [List.length_map] using hb1.2
  · rw [hwalk, hfil, hmapf]
    simpa using hb2.1
  · rw [hwalk, hfil, hmapf]
    simpa [List.length_map] using hb2.2

/-- Witness for C5's amended theorem on the two-pedestrian-section itinerary. -/
theorem transit_leg_sum_bounds_witness :
    ((([walkSec30, walkSec30].map sectionInfoOf).map SectionInfo.duration_minutes).sum ≤
        (extract_public_transit_prediction { summary := none, sections := some [walkSec30, walkSec30] }
          0 0 0 0 .PUBLIC_TRANSPORT 0 0).duration_minutes ∧
      (extract_public_transit_prediction { summary := none, sections := some [walkSec30, walkSec30] }
          0 0 0 0 .PUBLIC_TRANSPORT 0 0).duration_minutes ≤
        (([walkSec30, walkSec30].map sectionInfoOf).map SectionInfo.duration_minutes).sum +
          (([walkSec30, walkSec30].map sectionInfoOf).length - 1)) ∧
    (((([walkSec30, walkSec30].map sectionInfoOf).filter
            (fun leg => leg.type == "pedestrian")).map SectionInfo.duration_minutes).sum ≤
        (extract_public_transit_prediction { summary := none, sections := some [walkSec30, walkSec30] }
          0 0 0 0 .PUBLIC_TRANSPORT 0 0).total_walking_minutes.getD 0 ∧
      (extract_public_transit_prediction { summary := none, sections := some [walkSec30, walkSec30] }
          0 0 0 0 .PUBLIC_TRANSPORT 0 0).total_walking_minutes.getD 0 ≤
        ((([walkSec30, walkSec30].map sectionInfoOf).filter
              (fun leg => leg.type == "pedestrian")).map SectionInfo.duration_minutes).sum +
          ((([walkSec30, walkSec30].map sectionInfoOf).filter
              (fun leg => leg.type == "pedestrian")).length - 1)) :=
  transit_leg_sum_bounds [walkSec30, walkSec30] none 0 0 0 0 .PUBLIC_TRANSPORT 0 0
    ([walkSec30, walkSec30].map sectionInfoOf) (by decide)

/-- The per-point loop keeps exactly the successful points, in order. -/
theorem predictionLoop_eq_filterMap
    (predict : ℚ → ℚ → ℚ → ℚ → Option TransportationMode → Except String (Option Prediction))
    (lat lng : ℚ) (nf now : Nat) (l : List InterestPoint) :
    predictionLoop predict lat lng nf now l =
      l.filterMap (fun point =>
        match predict lat lng point.latitude point.longitude
            (some point.default_transportation_mode) with
        | .ok (some data) => some (mk_prediction_result point data nf now)
        | _ => none) := by
  induction l with
  | nil => rfl
  | cons p tl ih =>
    cases hp : predict lat lng p.latitude p.longitude
        (some p.default_transportation_mode) with
    | error e => simp [predictionLoop, List.filterMap_cons, hp, ih]
    | ok v => cases v <;> simp [predictionLoop, List.filterMap_cons, hp, ih]

/-- C6: for every registry list and every behaviour of the per-point provider
call (success, no-route, or raising), the per-property computation returns
(it is a total function) a result whose prediction list is exactly the
successful active points' predictions, in registry iteration order, each built
with that point's own default transportation mode; failed points are skipped
without affecting the others. -/
theorem predictions_for_property_isolation (pts : List InterestPoint)
    (predict : ℚ → ℚ → ℚ → ℚ → Option TransportationMode → Except String (Option Prediction))
    (today now : Nat) (lat lng : ℚ) (addr : String) :
    (calculate_predictions_for_property pts predict today now lat lng addr).predictions =
      (pts.filter (fun p => p.is_active)).filterMap (fun point =>
        match predict lat lng point.latitude point.longitude
            (some point.default_transportation_mode) with
        | .ok (some data) => some (mk_prediction_result point data (nextFriday today) now)
        | _ => none) := by
  simp only [calculate_predictions_for_property, get_active_interest_points]
  split
  · next hemp =>
    rw [List.isEmpty_iff] at hemp
    simp [hemp]
  · exact predictionLoop_eq_filterMap predict lat lng (nextFriday today) now _

/-- C7: with zero active interest points the per-property computation returns
an empty prediction list tagged with the resolved next Friday, as a normal
value (the embedding is a total function), not a failure. -/
theorem empty_active_prediction_set (pts : List InterestPoint)
    (predict : ℚ → ℚ → ℚ → ℚ → Option TransportationMode → Except String (Option Prediction))
    (today now : Nat) (lat lng : ℚ) (addr : String)
    (h : get_active_interest_points pts = []) :
    calculate_predictions_for_property pts predict today now lat lng addr =
      { property_id := "property", property_address := addr, property_latitude := lat,
        property_longitude := lng, prediction_date := nextFriday today,
        predictions := [], calculated_at := now } := by
  simp [calculate_predictions_for_property, h]

/-- Witness for C7 on a registry holding one inactive point. -/
theorem empty_active_prediction_set_witness :
    calculate_predictions_for_property [inactivePoint] (fun _ _ _ _ _ => Except.ok none)
        0 0 0 0 "addr" =
      { property_id := "property", property_address := "addr", property_latitude := 0,
        property_longitude := 0, prediction_date := nextFriday 0,
        predictions := [], calculated_at := 0 } :=
  empty_active_prediction_set [inactivePoint] (fun _ _ _ _ _ => Except.ok none)
    0 0 0 0 "addr" (by rfl)

/-- C8: the batch computation returns exactly one result entry per input
property, in input order (the entry at each position carries that property's
id), and every entry's `total_predictions` equals the length of its
predictions list. -/
theorem batch_results_per_property
    (predict : ℚ → ℚ → ℚ → ℚ → Option TransportationMode → Except String (Option Prediction))
    (properties : List (String × ℚ × ℚ)) (interest_points : List InterestPoint) :
    (batch_calculate_predictions predict properties interest_points).map
        BatchResult.property_id = properties.map (fun prop => prop.1) ∧
    ∀ r ∈ batch_calculate_predictions predict properties interest_points,
      r.total_predictions = r.predictions.length := by
  constructor
  · simp [batch_calculate_predictions, List.map_map, Function.comp]
  · intro r hr
    simp only [batch_calculate_predictions, List.mem_map] at hr
    obtain ⟨prop, _, rfl⟩ := hr
    rfl

/-- Witness for C8 on a two-property batch with an empty point registry. -/
theorem batch_results_per_property_witness :
    (batch_calculate_predictions (fun _ _ _ _ _ => Except.ok none)
        [("p1", 0, 0), ("p2", 1, 1)] []).map BatchResult.property_id = ["p1", "p2"] ∧
    ({ property_id := "p1", predictions := [], total_predictions := 0 } :
        BatchResult).total_predictions =
      ({ property_id := "p1", predictions := [], total_predictions := 0 } :
        BatchResult).predictions.length :=
  ⟨(batch_results_per_property (fun _ _ _ _ _ => Except.ok none)
      [("p1", 0, 0), ("p2", 1, 1)] []).1,
    (batch_results_per_property (fun _ _ _ _ _ => Except.ok none)
      [("p1", 0, 0), ("p2", 1, 1)] []).2
      { property_id := "p1", predictions := [], total_predictions := 0 } (by decide)⟩

/-- C9 counterexample: identical inputs and identical raw route data at two
different wall-clock instants yield different prediction values — the
`calculated_at` field records the clock at extraction time, so the results are
not bit-identical. -/
theorem prediction_now_leakage_counterexample :
    calculate_prediction_time
        (fun _ =>
          some { routes := some [{ summary := some { duration := some 60, length := some 1000 } }] })
        0 0 0 0 0 0 (some .DRIVING) ≠
      calculate_prediction_time
        (fun _ =>
          some { routes := some [{ summary := some { duration := some 60, length := some 1000 } }] })
        0 1 0 0 0 0 (some .DRIVING) := by
  intro hcontra
  have h2 := congrArg (Option.map Prediction.calculated_at) hcontra
  simp [calculate_prediction_time, extract_regular_route_prediction] at h2

/-- C9 amended: with the raw provider data and the resolved Friday target
fixed, every field of the prediction other than `calculated_at` is independent
of the wall clock at extraction time; `calculated_at` itself is exactly the
extraction-time clock. -/
theorem prediction_deterministic_modulo_timestamp
    (provider : TransportationMode → Option RouteData) (today n1 n2 : Nat)
    (origin_lat origin_lng dest_lat dest_lng : ℚ)
    (transport_mode : Option TransportationMode) :
    (calculate_prediction_time provider today n1
        origin_lat origin_lng dest_lat dest_lng transport_mode).map erase_calculated_at =
      (calculate_prediction_time provider today n2
        origin_lat origin_lng dest_lat dest_lng transport_mode).map erase_calculated_at := by
  simp only [calculate_prediction_time]
  cases provider (transport_mode.getD .DRIVING) with
  | none => rfl
  | some rd =>
    obtain ⟨rts⟩ := rd
    cases rts with
    | none => rfl
    | some routes =>
      cases routes with
      | nil => rfl
      | cons route rest =>
        by_cases hm : transport_mode.getD .DRIVING = .PUBLIC_TRANSPORT
        · simp [hm, extract_public_transit_prediction, erase_calculated_at]
        · simp [hm, extract_regular_route_prediction, erase_calculated_at]

/-- C10: adding a point whose id is already stored reports `False` and leaves
the list unchanged; adding a fresh id appends it at the end and reports
`True`; hence the operation preserves uniqueness of stored ids. -/
theorem add_interest_point_spec (pts : List InterestPoint) (p : InterestPoint) :
    ((∃ q ∈ pts, q.id = p.id) → add_interest_point pts p = (pts, false)) ∧
    ((∀ q ∈ pts, q.id ≠ p.id) → add_interest_point pts p = (pts ++ [p], true)) ∧
    ((pts.map InterestPoint.id).Nodup →
      (((add_interest_point pts p).1).map InterestPoint.id).Nodup) := by
  refine ⟨?_, ?_, ?_⟩
  · rintro ⟨q, hq, hid⟩
    have hne : get_interest_point_by_id pts p.id ≠ none := by
      unfold get_interest_point_by_id
      rw [Ne, List.find?_eq_none]
      push_neg
      exact ⟨q, hq, by simp [hid]⟩
    rcases ho : get_interest_point_by_id pts p.id with _ | q2
    · exact absurd ho hne
    · simp [add_interest_point, ho]
  · intro hall
    have ho : get_interest_point_by_id pts p.id = none := by
      unfold get_interest_point_by_id
      rw [List.find?_eq_none]
      intro x hx
      simp [hall x hx]
    simp [add_interest_point, ho]
  · intro hnd
    rcases ho : get_interest_point_by_id pts p.id with _ | q2
    · have hnotin : p.id ∉ pts.map InterestPoint.id := by
        intro hmem
        rcases List.mem_map.mp hmem with ⟨x, hx, hxid⟩
        have hfind := List.find?_eq_none.mp ho x hx
        simp [hxid] at hfind
      simp [add_interest_point, ho, List.nodup_append, hnd, hnotin]
    · simpa [add_interest_point, ho] using hnd

/-- Witness for C10: rejecting a duplicate id, appending a fresh id, and the
resulting id list staying duplicate-free. -/
theorem add_interest_point_spec_witness :
    add_interest_point [pointA] { pointA with name := "A2" } = ([pointA], false) ∧
    add_interest_point [pointA] pointB = ([pointA] ++ [pointB], true) ∧
    (((add_interest_point [pointA] pointB).1).map InterestPoint.id).Nodup :=
  ⟨(add_interest_point_spec [pointA] { pointA with name := "A2" }).1
      ⟨pointA, by simp, rfl⟩,
    (add_interest_point_spec [pointA] pointB).2.1
      (by
        intro q hq
        rw [List.mem_singleton] at hq
        subst hq
        decide),
    (add_interest_point_spec [pointA] pointB).2.2 (by simp)⟩

end HouseHunter
